import Mathlib

/-!
Verification development for the university-application tracker (`src/app.py`).

The program is a single-file Streamlit app.  Its logic slice consists of:
  * a session dictionary `st.session_state.requirements_checked` holding six
    generic boolean requirement flags plus a `University_Specific` sub-mapping,
  * `save_progress` (app.py lines 15-31), serializing the dictionary with a
    timestamp to `progress/application_progress.json`,
  * the startup load (app.py lines 33-54), replacing the default dictionary
    wholesale with the persisted `requirements_checked` value and falling back
    to the defaults on any read/parse failure,
  * `load_university_data` (app.py lines 56-126), a constant 10-row table,
  * the category/program filter (lines 152-156),
  * the overall-progress ratio (lines 186-194), the lazy per-university entry
    creation (lines 216-224), the per-university ratio (line 256), and the
    average-application-fee statistic (line 266).

Python dictionaries are embedded as insertion-ordered association lists, JSON
values as the inductive `Json`, machine floats over the decimal strings
occurring here as exact rationals, and raised-and-caught exceptions as
`Option`/`Except` results.
-/

/-- JSON values as produced by `json.load` / consumed by `json.dump`.
Numbers are modelled as exact rationals. -/
inductive Json where
  | null
  | bool (b : Bool)
  | num (q : ℚ)
  | str (s : String)
  | arr (elems : List Json)
  | obj (fields : List (String × Json))

/-- Python truthiness (`bool(v)`) of a JSON value, used by the generator
expression `if key != 'University_Specific' and val` in app.py line 187. -/
def truthy : Json → Bool
  | .null => false
  | .bool b => b
  | .num q => q != 0
  | .str s => !s.isEmpty
  | .arr l => !l.isEmpty
  | .obj l => !l.isEmpty

/-- Content of the persisted snapshot file `progress/application_progress.json`:
either bytes that `json.load` rejects (any read or parse failure), or a parsed
JSON value. -/
inductive FileData where
  | corrupt
  | json (j : Json)

/-- The storage visible to the program: whether the `progress` directory
exists, and the snapshot file's content (`none` when the file is absent). -/
structure World where
  dirExists : Bool
  file : Option FileData

/-- The session state the logic reads and writes:
`st.session_state.requirements_checked`.  After a successful load it holds
whatever JSON value was stored under `requirements_checked`, validated
nowhere. -/
structure AppState where
  requirements_checked : Json

/-- Default initial state of app.py lines 36-44: six generic flags, all
`False`, plus an empty `University_Specific` mapping. -/
def defaultRequirements : List (String × Json) :=
  [("GRE", .bool false), ("TOEFL", .bool false), ("Transcripts", .bool false),
   ("SOP", .bool false), ("Resume", .bool false), ("LORs", .bool false),
   ("University_Specific", .obj [])]

/-- The `progress_data` dictionary built by `save_progress`
(app.py lines 16-19). -/
def snapshotFields (rc : Json) (ts : String) : List (String × Json) :=
  [("requirements_checked", rc), ("last_updated", .str ts)]

/-- `save_progress` (app.py lines 15-31).  `io` carries the message of an I/O
exception raised by `os.makedirs`/`open`/`json.dump` when one occurs (`none`
when the write succeeds).  The function never touches the session state, which
is threaded through unchanged; on success the directory exists and the file
holds exactly the new snapshot, whatever it held before. -/
def save_progress (app : AppState) (ts : String) (io : Option String)
    (w : World) : AppState × World × Except String Unit :=
  let snapshot := Json.obj (snapshotFields app.requirements_checked ts)
  match io with
  | some cause => (app, w, .error cause)
  | none => (app, ⟨true, some (.json snapshot)⟩, .ok ())

/-- Session-state initialization and load (app.py lines 33-54).  Defaults are
installed first; when the snapshot file exists its parse is attempted, and the
stored `requirements_checked` value replaces the defaults wholesale.  Any
failure (unreadable file, malformed JSON, non-dictionary top value, missing
key) is caught by line 53 and leaves the defaults; the returned flag records
whether the error branch (`st.error`) was signalled.  A snapshot whose
`requirements_checked` is present but whose `last_updated` is missing still
replaces the state (line 51 runs before line 52 raises `KeyError`). -/
def initSession (w : World) : AppState × Bool :=
  match w.file with
  | none => (⟨.obj defaultRequirements⟩, false)
  | some .corrupt => (⟨.obj defaultRequirements⟩, true)
  | some (.json j) =>
    match j with
    | .obj fields =>
      match fields.lookup "requirements_checked" with
      | some rc =>
        match fields.lookup "last_updated" with
        | some _ => (⟨rc⟩, false)
        | none => (⟨rc⟩, true)
      | none => (⟨.obj defaultRequirements⟩, true)
    | _ => (⟨.obj defaultRequirements⟩, true)

/-- `general_reqs` (app.py lines 187-188): the number of entries of the
session dictionary whose key differs from `University_Specific` and whose
value is truthy. -/
def general_reqs (fields : List (String × Json)) : ℕ :=
  (fields.filter (fun kv => kv.1 != "University_Specific" && truthy kv.2)).length

/-- `total_general_reqs` (app.py line 189): the dictionary's size minus one. -/
def total_general_reqs (fields : List (String × Json)) : ℕ :=
  fields.length - 1

/-- `progress` (app.py line 190): `general_reqs / total_general_reqs` as an
exact ratio. -/
def progress (fields : List (String × Json)) : ℚ :=
  (general_reqs fields : ℚ) / (total_general_reqs fields : ℚ)

/-- A per-university record of the data model: the four booleans created by
app.py lines 219-224. -/
structure UniversityProgress where
  application_started : Bool
  documents_uploaded : Bool
  application_submitted : Bool
  fee_paid : Bool
deriving DecidableEq

/-- JSON encoding of a `UniversityProgress`, with the key order of app.py
lines 219-224. -/
def UniversityProgress.toJson (p : UniversityProgress) : Json :=
  .obj [("Application_Started", .bool p.application_started),
        ("Documents_Uploaded", .bool p.documents_uploaded),
        ("Application_Submitted", .bool p.application_submitted),
        ("Fee_Paid", .bool p.fee_paid)]

/-- A schema-conformant checklist state (spec §3): six generic flags plus the
name-keyed mapping of per-university records. -/
structure ChecklistState where
  gre : Bool
  toefl : Bool
  transcripts : Bool
  sop : Bool
  resume : Bool
  lors : Bool
  university_specific : List (String × UniversityProgress)
deriving DecidableEq

/-- The session dictionary representing a `ChecklistState`, with the key order
of app.py lines 36-44. -/
def ChecklistState.toFields (s : ChecklistState) : List (String × Json) :=
  [("GRE", .bool s.gre), ("TOEFL", .bool s.toefl),
   ("Transcripts", .bool s.transcripts), ("SOP", .bool s.sop),
   ("Resume", .bool s.resume), ("LORs", .bool s.lors),
   ("University_Specific",
     .obj (s.university_specific.map (fun kv => (kv.1, kv.2.toJson))))]

/-- The session dictionary of a `ChecklistState` as a JSON value. -/
def ChecklistState.toJson (s : ChecklistState) : Json :=
  .obj s.toFields

/-- Number of true generic-requirement flags of a checklist state. -/
def trueFlagCount (s : ChecklistState) : ℕ :=
  [s.gre, s.toefl, s.transcripts, s.sop, s.resume, s.lors].countP id

/-- Pointwise order on the six generic flags: `t` has every flag of `s`. -/
def flagLe (s t : ChecklistState) : Prop :=
  s.gre ≤ t.gre ∧ s.toefl ≤ t.toefl ∧ s.transcripts ≤ t.transcripts ∧
  s.sop ≤ t.sop ∧ s.resume ≤ t.resume ∧ s.lors ≤ t.lors

instance (s t : ChecklistState) : Decidable (flagLe s t) := by
  unfold flagLe; infer_instance

/-- The four-field dictionary inserted by app.py lines 219-224 for a
university seen for the first time: all flags `False`. -/
def emptyUnivFields : List (String × Json) :=
  [("Application_Started", .bool false), ("Documents_Uploaded", .bool false),
   ("Application_Submitted", .bool false), ("Fee_Paid", .bool false)]

/-- Lazy creation of a per-university entry (app.py lines 216-224): when the
`University_Specific` mapping has no entry for `name`, a fresh all-false
record is inserted (Python dictionaries append new keys at the end);
otherwise the mapping is untouched. -/
def ensure_university (m : List (String × Json)) (name : String) :
    List (String × Json) :=
  match m.lookup name with
  | some _ => m
  | none => m ++ [(name, Json.obj emptyUnivFields)]

/-- Python numeric coercion used by `sum` over a dictionary's values
(app.py line 256): booleans count as 0/1, numbers as themselves, and any
other value raises `TypeError` (modelled as `none`). -/
def pyNum : Json → Option ℚ
  | .bool b => some (if b then 1 else 0)
  | .num q => some q
  | _ => none

/-- Collects a list of optional values, failing as soon as one is `none`. -/
def collectSome {α : Type} : List (Option α) → Option (List α)
  | [] => some []
  | none :: _ => none
  | some a :: r => (collectSome r).map (fun l => a :: l)

/-- `univ_progress_value` (app.py line 256):
`sum(univ_progress.values()) / len(univ_progress)` over the per-university
dictionary; `none` models the `TypeError` raised when a value is not
numeric. -/
def univ_progress_value (p : List (String × Json)) : Option ℚ :=
  match collectSome (p.map (fun kv => pyNum kv.2)) with
  | some vals => some (vals.sum / (p.length : ℚ))
  | none => none

/-- A per-university dictionary conforming to the data model: exactly the
four canonical keys, in creation order, with boolean values. -/
def wellFormedUnivRecord (p : List (String × Json)) : Prop :=
  ∃ b₁ b₂ b₃ b₄ : Bool,
    p = [("Application_Started", .bool b₁), ("Documents_Uploaded", .bool b₂),
         ("Application_Submitted", .bool b₃), ("Fee_Paid", .bool b₄)]

/-- Number of truthy values of a per-university dictionary; on a well-formed
record this is the number of `True` flags. -/
def trueFieldCount (p : List (String × Json)) : ℕ :=
  (p.filter (fun kv => truthy kv.2)).length

/-- One row of the university table (app.py lines 57-125). -/
structure URow where
  University : String
  Category : String
  Program : String
  Deadlines : String
  Application_Fee : String
  Requirements : String
  Expected_Qualities : String
  Apply_Link : String
  Program_Fee : String
deriving DecidableEq

/-- Row 1 of `load_university_data`. -/
def row1 : URow :=
  ⟨"UT Austin", "Self Apply", "MS CS", "Dec 15, 2024", "$75",
   "GRE (optional), TOEFL(88), 3 LORs, SOP",
   "Strong CS background, Research experience, 3.5+ GPA",
   "https://enterprise.login.utexas.edu/idp/profile/SAML2/Redirect/SSO?execution=e2s1",
   "$48,000"⟩

/-- Row 2 of `load_university_data`. -/
def row2 : URow :=
  ⟨"University of Florida", "Self Apply", "MS CS", "June 1, 2024", "$65",
   "GRE (optional), TOEFL(80), 3 LORs, SOP",
   "Programming skills, 3.0+ GPA, Project experience",
   "https://www.applyweb.com/cgi-bin/ustat?formcode=uflgrad", "$32,000"⟩

/-- Row 3 of `load_university_data`. -/
def row3 : URow :=
  ⟨"UC Davis", "Self Apply", "MS CS", "Dec 15, 2024", "$120",
   "GRE (required), TOEFL(90), 3 LORs, SOP",
   "Research aptitude, 3.3+ GPA, Strong technical background",
   "https://grad.ucdavis.edu/apply", "$52,000"⟩

/-- Row 4 of `load_university_data`. -/
def row4 : URow :=
  ⟨"Texas A&M", "Self Apply", "MS DS", "Jan 15, 2025", "$65",
   "GRE (optional), TOEFL(80), 3 LORs, SOP",
   "Statistics background, 3.0+ GPA, Programming skills",
   "https://texasam2025.liaisoncas.com/applicant-ux/#/dashboard", "$38,000"⟩

/-- Row 5 of `load_university_data`. -/
def row5 : URow :=
  ⟨"University of South Florida", "Self Apply", "MS CS", "June 1, 2024", "$50",
   "GRE (optional), TOEFL(79), 2 LORs, SOP",
   "CS fundamentals, 3.0+ GPA, Technical projects",
   "https://www.usf.edu/graduate-studies/admission", "$28,000"⟩

/-- Row 6 of `load_university_data`. -/
def row6 : URow :=
  ⟨"University of Central Florida", "Self Apply", "MS CS", "July 1, 2024", "$55",
   "GRE (optional), TOEFL(80), 2 LORs, SOP",
   "Programming proficiency, 3.0+ GPA, Project portfolio",
   "https://applynow.graduate.ucf.edu/apply/", "$30,000"⟩

/-- Row 7 of `load_university_data`. -/
def row7 : URow :=
  ⟨"San Jose State University", "IDP Consultancy", "MS CS", "May 1, 2024", "$70",
   "GRE (optional), TOEFL(80), 2 LORs, SOP",
   "Technical skills, 3.0+ GPA, Industry experience preferred",
   "https://www.sjsu.edu/admissions/graduate/want-to-apply", "$35,000"⟩

/-- Row 8 of `load_university_data`. -/
def row8 : URow :=
  ⟨"University of Illinois Chicago", "IDP Consultancy", "MS CS", "June 15, 2024",
   "$70", "GRE (optional), TOEFL(80), 3 LORs, SOP",
   "Strong academic record, 3.0+ GPA, Research/Project experience",
   "https://admissions.uic.edu/graduate-professional/apply", "$42,000"⟩

/-- Row 9 of `load_university_data`. -/
def row9 : URow :=
  ⟨"Florida Institute of Technology", "IDP Consultancy", "MS CS", "June 1, 2024",
   "$75", "GRE (optional), TOEFL(79), 2 LORs, SOP",
   "CS background, 3.0+ GPA, Technical expertise",
   "https://www.fit.edu/admissions/apply", "$31,000"⟩

/-- Row 10 of `load_university_data`. -/
def row10 : URow :=
  ⟨"Florida International University", "IDP Consultancy", "MS CS", "June 1, 2024",
   "$60", "GRE (optional), TOEFL(80), 2 LORs, SOP",
   "Programming skills, 3.0+ GPA, Project experience",
   "https://admissions.fiu.edu/how-to-apply/graduate-applicant", "$29,000"⟩

/-- `load_university_data` (app.py lines 56-126): the constant ten-row table,
in source order.  The column lists of the source are transposed into rows. -/
def load_university_data : List URow :=
  [row1, row2, row3, row4, row5, row6, row7, row8, row9, row10]

/-- `filtered_df` (app.py lines 152-156): rows whose `Category` is among the
selected categories and whose `Program` is among the selected programs
(`isin` on both columns, conjoined), keeping the table's order. -/
def filtered_df (cats progs : List String) : List URow :=
  load_university_data.filter
    (fun r => cats.contains r.Category && progs.contains r.Program)

/-- `.str.replace('$', '')` on one cell (app.py line 266): removes every
occurrence of the character `$` and nothing else. -/
def stripDollars (s : String) : String :=
  String.mk (s.data.filter (fun c => c ≠ '$'))

/-- Splits a character list at its first `.`, returning the part before and,
when a dot occurs, the part after it. -/
def splitFirstDot : List Char → List Char × Option (List Char)
  | [] => ([], none)
  | c :: r =>
    if c = '.' then ([], some r)
    else
      let (a, b) := splitFirstDot r
      (c :: a, b)

/-- Value of a list of decimal digit characters. -/
def digitsVal (l : List Char) : ℕ :=
  l.foldl (fun acc c => acc * 10 + (c.toNat - 48)) 0

/-- Unsigned decimal literal: `123`, `123.45`, `123.`, `.45`; anything else
(empty, a second dot, any non-digit such as a comma) is rejected. -/
def parseUnsigned (l : List Char) : Option ℚ :=
  let (ip, fp) := splitFirstDot l
  match fp with
  | none =>
    if !ip.isEmpty && ip.all Char.isDigit then some (digitsVal ip : ℚ) else none
  | some f =>
    if !(ip.isEmpty && f.isEmpty) && ip.all Char.isDigit && f.all Char.isDigit
    then some ((digitsVal ip : ℚ) + (digitsVal f : ℚ) / (10 : ℚ) ^ f.length)
    else none

/-- Python `float(s)` restricted to the signed decimal literals this program
can meet: an optional sign followed by digits with at most one dot.  A string
still containing a grouping comma is rejected (`float("1,234")` raises
`ValueError`). -/
def pyFloat (s : String) : Option ℚ :=
  match s.data with
  | '-' :: r => (parseUnsigned r).map (fun q => -q)
  | '+' :: r => parseUnsigned r
  | r => parseUnsigned r

/-- `avg_fee` (app.py line 266):
`filtered_df['Application_Fee'].str.replace('$', '').astype(float).mean()`.
`Except.error` models the `ValueError` raised by `astype(float)` when any
stripped cell is not a float literal; `Except.ok none` models the `NaN` that
`mean()` returns on an empty column (displayed by line 267, not an error). -/
def avg_fee (rows : List URow) : Except String (Option ℚ) :=
  match collectSome (rows.map (fun r => pyFloat (stripDollars r.Application_Fee))) with
  | none => .error "ValueError"
  | some vals =>
    .ok (if vals.length = 0 then none
         else some (vals.sum / (vals.length : ℚ)))

/-- Groups a (reversed) digit list into blocks of three, least-significant
block first. -/
def chunk3 : List Char → List (List Char)
  | [] => []
  | [a] => [[a]]
  | [a, b] => [[a, b]]
  | a :: b :: c :: rest => [a, b, c] :: chunk3 rest

/-- A natural number rendered with comma thousands separators, as Python's
`format(n, ',d')`. -/
def natThousands (n : ℕ) : String :=
  String.mk ((List.intercalate [','] (chunk3 (Nat.toDigits 10 n).reverse)).reverse)

/-- A nonnegative decimal literal split into its integer value and its
fractional digit characters. -/
def parseMoneyParts (l : List Char) : Option (ℕ × List Char) :=
  let (ip, fp) := splitFirstDot l
  match fp with
  | none =>
    if !ip.isEmpty && ip.all Char.isDigit then some (digitsVal ip, []) else none
  | some f =>
    if !(ip.isEmpty && f.isEmpty) && ip.all Char.isDigit && f.all Char.isDigit
    then some (digitsVal ip, f)
    else none

/-- Round a decimal `ip.f` to the nearest integer, ties to the even integer —
the rounding Python's `'{:,.0f}'` formatting applies to these exactly
representable amounts. -/
def roundTiesEven (ip : ℕ) (f : List Char) : ℕ :=
  if 2 * digitsVal f < 10 ^ f.length then ip
  else if 10 ^ f.length < 2 * digitsVal f then ip + 1
  else if ip % 2 = 0 then ip else ip + 1

/-- Modelled from the spec: the Data Provider's monetary normalization
(spec §4.1), which no function of `src/app.py` performs — the static-table
loader `load_university_data` returns its cells verbatim, and the spec's
design note records that this variant "does not strip at all".  Following the
spec's words: strip a leading currency symbol (treated as optional, the
spec's open policy question), strip grouping separators, parse the remainder
as a nonnegative floating-point amount (kept here as its exact decimal
parts), and re-render as `"$"` followed by the amount rounded to zero decimal
places with thousands separators. -/
def normalizeMoney (s : String) : Option String :=
  let body := match s.data with
    | '$' :: r => r
    | r => r
  let cleaned := body.filter (fun c => c ≠ ',')
  match parseMoneyParts cleaned with
  | none => none
  | some (ip, f) => some ("$" ++ natThousands (roundTiesEven ip f))

/-- The monetary cells of the Data Provider's output: the `Application_Fee`
and `Program_Fee` columns of `load_university_data`. -/
def monetaryCells : List String :=
  load_university_data.map (fun r => r.Application_Fee) ++
    load_university_data.map (fun r => r.Program_Fee)

/-- A checklist state with the first `k` of the six generic flags set. -/
def exStateK (k : ℕ) : ChecklistState :=
  ⟨decide (1 ≤ k), decide (2 ≤ k), decide (3 ≤ k), decide (4 ≤ k),
   decide (5 ≤ k), decide (6 ≤ k), []⟩

/-- Example state with exactly three generic flags set. -/
def ex3State : ChecklistState := ⟨true, true, true, false, false, false, []⟩

/-- Example state below `exHiState` in the flag order. -/
def exLoState : ChecklistState := ⟨true, false, false, false, false, false, []⟩

/-- Example state above `exLoState` in the flag order. -/
def exHiState : ChecklistState := ⟨true, true, false, false, false, true, []⟩

/-- A loaded `requirements_checked` dictionary with an extra eighth key, as
the unvalidated load of app.py line 51 can install. -/
def extraKeyFields : List (String × Json) :=
  [("GRE", .bool true), ("TOEFL", .bool false), ("Transcripts", .bool false),
   ("SOP", .bool false), ("Resume", .bool false), ("LORs", .bool false),
   ("University_Specific", .obj []), ("Extra_Notes", .bool true)]

/-- A loaded `requirements_checked` dictionary missing the `Resume` key. -/
def missingKeyFields : List (String × Json) :=
  [("GRE", .bool true), ("TOEFL", .bool false), ("Transcripts", .bool false),
   ("SOP", .bool false), ("LORs", .bool false), ("University_Specific", .obj [])]

/-- A row identical to row 1 except that its application fee carries a
grouping separator. -/
def rowCommaFee : URow := { row1 with Application_Fee := "$1,234" }

/-!  Theorems.  -/

theorem general_reqs_toFields (s : ChecklistState) :
    general_reqs s.toFields = trueFlagCount s := by
  obtain ⟨g, t, tr, so, re, lo, m⟩ := s
  cases g <;> cases t <;> cases tr <;> cases so <;> cases re <;> cases lo <;> rfl

theorem total_general_reqs_toFields (s : ChecklistState) :
    total_general_reqs s.toFields = 6 := rfl

theorem progress_toFields (s : ChecklistState) :
    progress s.toFields = (trueFlagCount s : ℚ) / 6 := by
  unfold progress
  rw [general_reqs_toFields, total_general_reqs_toFields]
  norm_num

theorem countP_mono_aux :
    ∀ g₁ t₁ r₁ s₁ e₁ l₁ g₂ t₂ r₂ s₂ e₂ l₂ : Bool,
      g₁ ≤ g₂ → t₁ ≤ t₂ → r₁ ≤ r₂ → s₁ ≤ s₂ → e₁ ≤ e₂ → l₁ ≤ l₂ →
      [g₁, t₁, r₁, s₁, e₁, l₁].countP id ≤ [g₂, t₂, r₂, s₂, e₂, l₂].countP id := by
  decide

theorem flagCount_le_six (s : ChecklistState) : trueFlagCount s ≤ 6 := by
  have h := List.countP_le_length (p := id)
    (l := [s.gre, s.toefl, s.transcripts, s.sop, s.resume, s.lors])
  simpa [trueFlagCount] using h

theorem flagCount_exStateK (k : ℕ) (hk : k ≤ 6) : trueFlagCount (exStateK k) = k := by
  interval_cases k <;> rfl

/-- C1.  `overall_progress` over any schema-conformant checklist state: the
ratio is the number of true generic flags over the fixed denominator 6
whatever the state's contents, it lies in the seven values 0/6 … 6/6, every
one of those values is attained, it is 1/2 exactly when three of the six
flags are true, and it is monotone in the flags. -/
theorem c1_overall_progress :
    (∀ s : ChecklistState, progress s.toFields = (trueFlagCount s : ℚ) / 6) ∧
    (∀ s : ChecklistState,
      progress s.toFields ∈ [(0 : ℚ)/6, 1/6, 2/6, 3/6, 4/6, 5/6, 6/6]) ∧
    (∀ k : ℕ, k ≤ 6 → ∃ s : ChecklistState, progress s.toFields = (k : ℚ)/6) ∧
    (∀ s : ChecklistState, trueFlagCount s = 3 → progress s.toFields = 1/2) ∧
    (∀ s t : ChecklistState, flagLe s t →
      progress s.toFields ≤ progress t.toFields) := by
  refine ⟨progress_toFields, ?_, ?_, ?_, ?_⟩
  · intro s
    rw [progress_toFields]
    have h := flagCount_le_six s
    set k := trueFlagCount s with hk
    interval_cases k <;> norm_num
  · intro k hk
    exact ⟨exStateK k, by rw [progress_toFields, flagCount_exStateK k hk]⟩
  · intro s h3
    rw [progress_toFields, h3]
    norm_num
  · intro s t h
    rw [progress_toFields, progress_toFields]
    have hc : trueFlagCount s ≤ trueFlagCount t := by
      have := countP_mono_aux s.gre s.toefl s.transcripts s.sop s.resume s.lors
        t.gre t.toefl t.transcripts t.sop t.resume t.lors
        h.1 h.2.1 h.2.2.1 h.2.2.2.1 h.2.2.2.2.1 h.2.2.2.2.2
      simpa [trueFlagCount] using this
    have hq : (trueFlagCount s : ℚ) ≤ (trueFlagCount t : ℚ) := by
      exact_mod_cast hc
    gcongr

/-- Witness for C1 at concrete states. -/
theorem c1_overall_progress_witness :
    (trueFlagCount ex3State = 3 ∧ progress ex3State.toFields = 1/2) ∧
    (flagLe exLoState exHiState ∧
      progress exLoState.toFields ≤ progress exHiState.toFields) ∧
    (4 ≤ 6 ∧ ∃ s : ChecklistState, progress s.toFields = ((4 : ℕ) : ℚ)/6) :=
  ⟨⟨by decide, c1_overall_progress.2.2.2.1 ex3State (by decide)⟩,
   ⟨by decide, c1_overall_progress.2.2.2.2 exLoState exHiState (by decide)⟩,
   ⟨by decide, c1_overall_progress.2.2.1 4 (by decide)⟩⟩

/-- C2.  Saving a valid checklist state and re-initializing from the written
snapshot restores exactly the same `requirements_checked` value (and no load
error is signalled); two snapshots of the same state differ at most in their
`last_updated` entry. -/
theorem c2_save_load_roundtrip :
    (∀ (s : ChecklistState) (ts : String) (w : World),
      initSession (save_progress ⟨s.toJson⟩ ts none w).2.1 = (⟨s.toJson⟩, false)) ∧
    (∀ (rc : Json) (ts₁ ts₂ : String),
      (snapshotFields rc ts₁).filter (fun kv => kv.1 != "last_updated") =
        (snapshotFields rc ts₂).filter (fun kv => kv.1 != "last_updated")) := by
  constructor
  · intro s ts w
    rfl
  · intro rc ts₁ ts₂
    rfl

/-- C3.  When the snapshot file exists but is corrupt, initialization
installs the default state — all six generic flags false and an empty
`University_Specific` mapping — and signals the non-fatal load error; a
subsequent save still succeeds and replaces the corrupt file with a complete
fresh snapshot. -/
theorem c3_corrupt_snapshot_recovery :
    (∀ d : Bool,
      initSession ⟨d, some .corrupt⟩ = (⟨.obj defaultRequirements⟩, true)) ∧
    Json.obj defaultRequirements =
      ChecklistState.toJson ⟨false, false, false, false, false, false, []⟩ ∧
    (∀ (d : Bool) (ts : String),
      save_progress (initSession ⟨d, some .corrupt⟩).1 ts none ⟨d, some .corrupt⟩ =
        ((initSession ⟨d, some .corrupt⟩).1,
         ⟨true, some (.json (.obj (snapshotFields (.obj defaultRequirements) ts)))⟩,
         .ok ())) := by
  refine ⟨fun d => rfl, rfl, fun d ts => rfl⟩

/-- C7.  On an I/O failure `save_progress` reports the underlying cause and
leaves the in-memory state untouched; on success it leaves the state
untouched, makes the `progress` directory exist, and writes the complete
two-field snapshot, replacing whatever the file held before. -/
theorem c7_save_error_handling :
    (∀ (app : AppState) (ts cause : String) (w : World),
      (save_progress app ts (some cause) w).1 = app ∧
      (save_progress app ts (some cause) w).2.2 = .error cause) ∧
    (∀ (app : AppState) (ts : String) (w : World),
      (save_progress app ts none w).1 = app ∧
      (save_progress app ts none w).2.1 =
        ⟨true, some (.json (.obj (snapshotFields app.requirements_checked ts)))⟩ ∧
      (save_progress app ts none w).2.2 = .ok ()) := by
  exact ⟨fun app ts cause w => ⟨rfl, rfl⟩, fun app ts w => ⟨rfl, rfl, rfl⟩⟩



theorem lookup_append_single {m : List (String × Json)} {n : String}
    (h : m.lookup n = none) (v : Json) : (m ++ [(n, v)]).lookup n = some v := by
  induction m with
  | nil => simp [List.lookup]
  | cons kv rest ih =>
    obtain ⟨k, val⟩ := kv
    rw [List.cons_append]
    rw [List.lookup_cons] at h ⊢
    cases hnk : n == k with
    | true => rw [hnk] at h; simp at h
    | false => rw [hnk] at h; exact ih h

theorem countP_key_eq_zero {m : List (String × Json)} {n : String}
    (h : m.lookup n = none) : m.countP (fun kv => kv.1 == n) = 0 := by
  induction m with
  | nil => rfl
  | cons kv rest ih =>
    obtain ⟨k, val⟩ := kv
    rw [List.lookup_cons] at h
    cases hnk : n == k with
    | true => rw [hnk] at h; simp at h
    | false =>
      rw [hnk] at h
      have hne : k ≠ n := by
        intro e
        subst e
        simp at hnk
      rw [List.countP_cons, ih h]
      simp [hne]

/-- C5.  `ensure_university` on a missing name inserts a record with exactly
the four per-university fields, all false, leaving exactly one entry for the
name; a second call with the same name is a no-op. -/
theorem c5_ensure_university_idempotent :
    (∀ (m : List (String × Json)) (name : String), m.lookup name = none →
      (ensure_university m name).lookup name = some (Json.obj emptyUnivFields) ∧
      (ensure_university m name).countP (fun kv => kv.1 == name) = 1) ∧
    (∀ (m : List (String × Json)) (name : String),
      ensure_university (ensure_university m name) name = ensure_university m name) := by
  constructor
  · intro m name h
    constructor
    · simp only [ensure_university, h]
      exact lookup_append_single h _
    · simp only [ensure_university, h]
      rw [List.countP_append, countP_key_eq_zero h]
      simp
  · intro m name
    cases hl : m.lookup name with
    | some v => simp [ensure_university, hl]
    | none =>
      have happ := lookup_append_single hl (Json.obj emptyUnivFields)
      simp [ensure_university, hl, happ]

/-- Witness for C5 on an empty mapping and a concrete university name. -/
theorem c5_ensure_university_witness :
    ([] : List (String × Json)).lookup "UT Austin" = none ∧
    ((ensure_university [] "UT Austin").lookup "UT Austin" =
        some (Json.obj emptyUnivFields) ∧
      (ensure_university [] "UT Austin").countP (fun kv => kv.1 == "UT Austin") = 1) :=
  ⟨rfl, c5_ensure_university_idempotent.1 [] "UT Austin" rfl⟩

/-- C6.  On every well-formed four-field per-university record the ratio of
app.py line 256 is the number of true fields over 4, hence one of
0, 0.25, 0.5, 0.75, 1. -/
theorem c6_university_progress_ratio :
    ∀ p : List (String × Json), wellFormedUnivRecord p →
      univ_progress_value p = some ((trueFieldCount p : ℚ) / 4) ∧
      univ_progress_value p ∈
        [some (0 : ℚ), some (1/4 : ℚ), some (1/2 : ℚ), some (3/4 : ℚ), some (1 : ℚ)] := by
  rintro p ⟨b₁, b₂, b₃, b₄, rfl⟩
  cases b₁ <;> cases b₂ <;> cases b₃ <;> cases b₄ <;>
    refine ⟨?_, ?_⟩ <;>
    simp [univ_progress_value, collectSome, pyNum, trueFieldCount, truthy] <;>
    norm_num

/-- Witness for C6 on the freshly inserted all-false record. -/
theorem c6_university_progress_witness :
    wellFormedUnivRecord emptyUnivFields ∧
    (univ_progress_value emptyUnivFields =
        some ((trueFieldCount emptyUnivFields : ℚ) / 4) ∧
      univ_progress_value emptyUnivFields ∈
        [some (0 : ℚ), some (1/4 : ℚ), some (1/2 : ℚ), some (3/4 : ℚ), some (1 : ℚ)]) :=
  ⟨⟨false, false, false, false, rfl⟩,
   c6_university_progress_ratio emptyUnivFields ⟨false, false, false, false, rfl⟩⟩

/-- C8.  The filter keeps exactly the rows whose category and program are
both selected, in table order; on the concrete selection
`{Self Apply} × {MS CS}` it returns rows 1, 2, 3, 5 and 6. -/
theorem c8_filtering :
    (∀ (cats progs : List String) (r : URow),
      r ∈ filtered_df cats progs ↔
        r ∈ load_university_data ∧ r.Category ∈ cats ∧ r.Program ∈ progs) ∧
    (∀ cats progs : List String,
      (filtered_df cats progs).Sublist load_university_data) ∧
    filtered_df ["Self Apply"] ["MS CS"] = [row1, row2, row3, row5, row6] := by
  refine ⟨?_, ?_, by decide⟩
  · intro cats progs r
    simp [filtered_df, List.mem_filter, List.contains, and_assoc]
  · intro cats progs
    exact List.filter_sublist _

/-- C9.  The overall-progress denominator is the session dictionary's size
minus one, not a literal 6: a loaded snapshot with an extra top-level key is
accepted unvalidated and yields a ratio over 7, one with a missing key a
ratio over 5. -/
theorem c9_variable_denominator :
    (∀ fields : List (String × Json),
      total_general_reqs fields = fields.length - 1 ∧
      progress fields = (general_reqs fields : ℚ) / ((fields.length - 1 : ℕ) : ℚ)) ∧
    (∀ d : Bool,
      initSession ⟨d, some (.json (.obj
          (snapshotFields (.obj extraKeyFields) "2024-01-01 00:00:00")))⟩ =
        (⟨.obj extraKeyFields⟩, false)) ∧
    extraKeyFields.length - 1 = 7 ∧
    general_reqs extraKeyFields = 2 ∧
    progress extraKeyFields = 2/7 ∧
    missingKeyFields.length - 1 = 5 ∧
    general_reqs missingKeyFields = 1 ∧
    progress missingKeyFields = 1/5 := by
  refine ⟨fun fields => ⟨rfl, rfl⟩, fun d => rfl, rfl, by decide, ?_, rfl, by decide, ?_⟩
  · simp [progress, general_reqs, total_general_reqs, extraKeyFields, truthy]
  · simp [progress, general_reqs, total_general_reqs, missingKeyFields, truthy]

/-- C10.  The average-fee statistic strips only `$` from each filtered
`Application_Fee` cell and takes the float mean: over the whole table it is
70.5; over an empty filtered set it is NaN (displayed, not an error); a cell
with a grouping comma makes the float conversion raise. -/
theorem c10_avg_fee_statistic :
    avg_fee (filtered_df ["Self Apply", "IDP Consultancy"] ["MS CS", "MS DS"]) =
      .ok (some (141/2)) ∧
    avg_fee (filtered_df [] []) = .ok none ∧
    avg_fee [rowCommaFee] = .error "ValueError" := by
  refine ⟨?_, rfl, rfl⟩
  have hall : filtered_df ["Self Apply", "IDP Consultancy"] ["MS CS", "MS DS"] =
      load_university_data := by decide
  rw [hall]
  simp [avg_fee, load_university_data, row1, row2, row3, row4, row5, row6, row7,
    row8, row9, row10, stripDollars, pyFloat, parseUnsigned, splitFirstDot,
    digitsVal, collectSome]
  norm_num

/-- C4.  Every monetary cell the Data Provider outputs coincides with its
normalization — strip the leading `$` and the grouping commas, read the
decimal amount, re-render as `$` plus the comma-grouped amount rounded to
zero decimals — and on the spec's example the normalization maps
`$1,234.5` to `$1,234`.  The normalization routine itself is modelled from
the spec (see `normalizeMoney`): the static-table variant in `src/app.py`
returns its cells verbatim, all of which are already canonical. -/
theorem c4_monetary_normalization :
    normalizeMoney "$1,234.5" = some "$1,234" ∧
    ∀ c ∈ monetaryCells, normalizeMoney c = some c := by
  refine ⟨by decide, ?_⟩
  have hall : (monetaryCells.all fun c => normalizeMoney c == some c) = true := by
    decide
  intro c hc
  have h := List.all_eq_true.mp hall c hc
  simpa using h

/-- Witness for C4 on the first application-fee cell. -/
theorem c4_monetary_normalization_witness :
    "$75" ∈ monetaryCells ∧ normalizeMoney "$75" = some "$75" :=
  ⟨by decide, c4_monetary_normalization.2 "$75" (by decide)⟩
